import Mathlib

/-!
Shallow embedding of the scoring/classification core of the
`citizenbship-docs` app (`src/App.tsx`): the document classifier
`guessDocType` and the eligibility scorer `scoreQuality`, together with
theorems settling the spec claims about them.
-/

/-- Document categories inferred from filenames, plus `unknown`
(the TS union `DocType | "unknown"`). -/
inductive InferredType where
  | certidao_nascimento
  | certidao_casamento
  | certidao_obito
  | certidao_naturalizacao
  | certidao_negativa_naturalizacao
  | passaporte
  | rg_cnh
  | comprovante_endereco
  | apostila_haya
  | traducao_juramentada
  | unknown
deriving DecidableEq, Repr

/-- Projection of a JS `File` object to the fields the core reads: name and byte size. -/
structure FileInfo where
  name : String
  size : Nat
deriving DecidableEq, Repr

/-- Structure `UploadedDoc` from the source: opaque id, underlying file, inferred category. -/
structure UploadedDoc where
  id : String
  file : FileInfo
  inferredType : InferredType
deriving DecidableEq, Repr

/-- Structure `Applicant` from the source (phone is optional in TS; the core never reads it). -/
structure Applicant where
  fullName : String
  email : String
  phone : String
  country : String
  city : String
deriving DecidableEq, Repr

/-- Structure `LineageInfo` from the source. `relationshipToYou` is a union of five
non-empty string literals in TS; modelled as a `String`, with JS truthiness
(non-empty) checked where the source checks it. -/
structure LineageInfo where
  italianAncestorName : String
  italianAncestorBirthYear : String
  italianAncestorBirthPlace : String
  relationshipToYou : String
  anyFemaleBefore1948 : Bool
  anyNaturalizationInLine : Bool
  naturalizedBeforeChildBirth : Bool
deriving DecidableEq, Repr

/-- ASCII lowercasing of a string, as a character list (JS `toLowerCase`
restricted to the ASCII range, which covers every keyword the code matches). -/
def toLowerChars (s : String) : List Char :=
  s.data.map Char.toLower

/-- Occurs-as-contiguous-sublist test on character lists. -/
def includesChars (pat : List Char) : List Char → Bool
  | [] => pat.isEmpty
  | c :: cs => pat.isPrefixOf (c :: cs) || includesChars pat cs

/-- Test from JS `n.includes(pat)` for an already-lowercased character list `n`. -/
def strIncludes (n : List Char) (pat : String) : Bool :=
  includesChars pat.data n

/-- Suffix test on character lists. -/
def endsWithChars (s suffix : List Char) : Bool :=
  suffix.reverse.isPrefixOf s.reverse

/-- Helper `isImage` from the source: the regex `/\.(png|jpe?g|webp|gif)$/i`. -/
def isImage (name : String) : Bool :=
  [".png", ".jpg", ".jpeg", ".webp", ".gif"].any
    (fun e => endsWithChars (toLowerChars name) e.data)

/-- Helper `isPDF` from the source: the regex `/\.(pdf)$/i`. -/
def isPDF (name : String) : Bool :=
  endsWithChars (toLowerChars name) ".pdf".data

/-- Branch chain of `guessDocType` over the lowercased name `n`, branch order
preserved exactly: the `"naturaliza"` check comes BEFORE the
`"negativa" && "naturaliza"` check, as in the code. -/
def guessDocTypeLow (n : List Char) : InferredType :=
  if strIncludes n "nascimento" then .certidao_nascimento
  else if strIncludes n "casamento" then .certidao_casamento
  else if strIncludes n "óbito" || strIncludes n "obito" then .certidao_obito
  else if strIncludes n "naturaliza" then .certidao_naturalizacao
  else if strIncludes n "negativa" && strIncludes n "naturaliza" then
    .certidao_negativa_naturalizacao
  else if strIncludes n "passaporte" then .passaporte
  else if strIncludes n "rg" || strIncludes n "cnh" || strIncludes n "identidade" then
    .rg_cnh
  else if strIncludes n "endereco" || strIncludes n "endereço" then
    .comprovante_endereco
  else if strIncludes n "apostila" || strIncludes n "haia" || strIncludes n "haya" then
    .apostila_haya
  else if strIncludes n "tradu" then .traducao_juramentada
  else .unknown

/-- Classifier `guessDocType` from the source: lowercase the filename once
(`const n = name.toLowerCase()`), then run the branch chain. -/
def guessDocType (name : String) : InferredType :=
  guessDocTypeLow (toLowerChars name)

/-- Test `types.has(t)` where `types = new Set(docs.map(d => d.inferredType))`:
membership of `t` among the documents' inferred categories. -/
def hasType (docs : List UploadedDoc) (t : InferredType) : Bool :=
  docs.any (fun d => d.inferredType == t)

/-- The file-format sanity check from the source:
`docs.every(d => isPDF(d.file.name) || isImage(d.file.name))`. -/
def pdfOrImg (docs : List UploadedDoc) : Bool :=
  docs.all (fun d => isPDF d.file.name || isImage d.file.name)

/-- The score accumulated by `scoreQuality` before the clamp: the sum of all
`score +=` / `score -=` contributions, in source order. -/
def preScore (lineage : LineageInfo) (docs : List UploadedDoc)
    (applicant : Applicant) : Int :=
  (if applicant.fullName ≠ "" then 5 else 0)
  + (if applicant.email ≠ "" then 5 else 0)
  + (if applicant.country ≠ "" then 3 else 0)
  + (if applicant.city ≠ "" then 3 else 0)
  + (if lineage.italianAncestorName ≠ "" then 10 else 0)
  + (if lineage.italianAncestorBirthYear ≠ "" then 6 else 0)
  + (if lineage.relationshipToYou ≠ "" then 6 else 0)
  + (if hasType docs .certidao_nascimento then 10 else 0)
  + (if hasType docs .certidao_casamento then 8 else 0)
  + (if hasType docs .certidao_obito then 6 else 0)
  + (if hasType docs .certidao_negativa_naturalizacao
        || hasType docs .certidao_naturalizacao then 12 else 0)
  + (if hasType docs .apostila_haya then 8 else 0)
  + (if hasType docs .traducao_juramentada then 6 else 0)
  + (if lineage.anyNaturalizationInLine then -8 else 0)
  + (if lineage.naturalizedBeforeChildBirth then -25 else 0)
  + (if lineage.anyFemaleBefore1948 then -8 else 0)
  + (if pdfOrImg docs then 6 else 0)

/-- The label ladder from the source, applied to the clamped score. -/
def labelOf (score : Int) : String :=
  if score ≥ 80 then "Excelente — Alta probabilidade de viabilidade"
  else if score ≥ 60 then "Boa — Viável com possíveis ajustes"
  else if score ≥ 40 then "Regular — Documentos/linhagem incompletos"
  else "Baixa — Falhas críticas a resolver"

/-- The key-flag list from the source, in push order. -/
def flagsOf (lineage : LineageInfo) (docs : List UploadedDoc) : List String :=
  (if hasType docs .certidao_nascimento then []
   else ["Falta certidão de nascimento (linhagem)"])
  ++ (if hasType docs .certidao_casamento then []
      else ["Falta certidão de casamento em alguma geração"])
  ++ (if hasType docs .certidao_negativa_naturalizacao
         || hasType docs .certidao_naturalizacao then []
      else ["Falta prova de (não) naturalização do Avo Italiano"])
  ++ (if lineage.naturalizedBeforeChildBirth then
        ["Naturalização antes do nascimento do descendente — impeditivo"]
      else [])
  ++ (if lineage.anyFemaleBefore1948 then
        ["Linha materna pré‑1948 — via judicial"]
      else [])

/-- The scorer's output record `{ score, label, flags }`. -/
structure ScoreResult where
  score : Int
  label : String
  flags : List String
deriving DecidableEq, Repr

/-- Scorer `scoreQuality` from the source: accumulate, clamp to [0,100], label, flags. -/
def scoreQuality (lineage : LineageInfo) (docs : List UploadedDoc)
    (applicant : Applicant) : ScoreResult :=
  let score := max 0 (min 100 (preScore lineage docs applicant))
  { score := score
    label := labelOf score
    flags := flagsOf lineage docs }

/-! ## Concrete fixtures used by witnesses and counterexamples -/

/-- Applicant with every field empty. -/
def emptyApplicant : Applicant :=
  { fullName := "", email := "", phone := "", country := "", city := "" }

/-- Lineage at the presentation layer's defaults: empty strings, relationship
at its default value, all booleans false. -/
def defaultLineage : LineageInfo :=
  { italianAncestorName := "", italianAncestorBirthYear := "",
    italianAncestorBirthPlace := "", relationshipToYou := "bisavô/avó",
    anyFemaleBefore1948 := false, anyNaturalizationInLine := false,
    naturalizedBeforeChildBirth := false }

/-- A birth-certificate document with a recognized extension. -/
def nascPdfDoc : UploadedDoc :=
  { id := "a1", file := { name := "nascimento_pedro.pdf", size := 1024 },
    inferredType := guessDocType "nascimento_pedro.pdf" }

/-- A birth-certificate document with an unrecognized extension. -/
def nascBadExtDoc : UploadedDoc :=
  { id := "a2", file := { name := "nascimento_pedro.tiff", size := 1024 },
    inferredType := guessDocType "nascimento_pedro.tiff" }

/-- A document classified as a naturalization certificate. -/
def natDoc : UploadedDoc :=
  { id := "a3", file := { name := "naturalizacao.pdf", size := 2048 },
    inferredType := guessDocType "naturalizacao.pdf" }

/-- A document carrying the negative-naturalization category (directly
assigned, as the classifier can never produce it). -/
def negDoc : UploadedDoc :=
  { id := "a4", file := { name := "negativa.pdf", size := 512 },
    inferredType := .certidao_negativa_naturalizacao }

/-! ## Helper lemmas -/

lemma scoreIte_le_self {c : Prop} [Decidable c] {x : Int} (hx : 0 ≤ x) :
    (if c then x else 0) ≤ x := by
  split <;> omega

lemma scoreIte_nonpos {c : Prop} [Decidable c] {x : Int} (hx : x ≤ 0) :
    (if c then x else 0) ≤ 0 := by
  split <;> omega

lemma scoreIte_nonneg {c : Prop} [Decidable c] {x : Int} (hx : 0 ≤ x) :
    0 ≤ (if c then x else 0) := by
  split <;> omega

/-- A cap on the accumulated sum: every positive contribution at its maximum,
no penalties, gives 5+5+3+3+10+6+6+10+8+6+12+8+6+6 = 94. -/
lemma preScore_le_94 (l : LineageInfo) (docs : List UploadedDoc) (a : Applicant) :
    preScore l docs a ≤ 94 := by
  have h : preScore l docs a ≤
      5 + 5 + 3 + 3 + 10 + 6 + 6 + 10 + 8 + 6 + 12 + 8 + 6 + 0 + 0 + 0 + 6 := by
    unfold preScore
    repeat' apply add_le_add
    all_goals first
      | (apply scoreIte_le_self; norm_num)
      | (apply scoreIte_nonpos; norm_num)
  omega

/-! ## C1 — classifier on filenames containing "negativa" and "naturaliza" -/

/-- C1: on the code as written, the negative-naturalization branch is dead:
`guessDocType` can never return `certidao_negativa_naturalizacao` (for no
filename at all), and on the failing input `"Negativa_Naturalizacao.pdf"` it
returns the plain `certidao_naturalizacao` — contradicting the spec's
requirement that filenames containing both "negativa" and "naturaliza" map to
the negative certificate. The `"naturaliza"` branch fires first, so the later
`"negativa" && "naturaliza"` branch is unreachable. -/
theorem guessDocType_negativa_dead_branch :
    (∀ name : String,
      (guessDocType name == InferredType.certidao_negativa_naturalizacao) = false)
    ∧ guessDocType "Negativa_Naturalizacao.pdf" = .certidao_naturalizacao := by
  constructor
  · intro name
    unfold guessDocType guessDocTypeLow
    repeat' split
    all_goals first | rfl | simp_all
  · decide

/-! ## C2 — the clamped score lies in [0, 100] -/

/-- C2: for every lineage, document list and applicant, the score returned by
`scoreQuality` is an integer in [0, 100], and it equals the clamp
`max 0 (min 100 sum)` of the accumulated sum. -/
theorem scoreQuality_score_mem_Icc
    (l : LineageInfo) (docs : List UploadedDoc) (a : Applicant) :
    0 ≤ (scoreQuality l docs a).score ∧ (scoreQuality l docs a).score ≤ 100 ∧
    (scoreQuality l docs a).score = max 0 (min 100 (preScore l docs a)) := by
  refine ⟨?_, ?_, rfl⟩ <;> simp only [scoreQuality] <;> omega

/-! ## C5 — the empty-input, disqualifying-naturalization scenario -/

/-- C5: with every applicant field empty, lineage at its defaults except
`naturalizedBeforeChildBirth = true`, and zero documents, the result is
score 0 (the negative sum clamps to 0), the "Low" label, and exactly the four
flags for missing birth certificate, missing marriage certificate, missing
naturalization proof, and disqualifying naturalization, in that order. -/
theorem scoreQuality_empty_blocker_scenario :
    scoreQuality { defaultLineage with naturalizedBeforeChildBirth := true }
      [] emptyApplicant =
    { score := 0
      label := "Baixa — Falhas críticas a resolver"
      flags := ["Falta certidão de nascimento (linhagem)",
                "Falta certidão de casamento em alguma geração",
                "Falta prova de (não) naturalização do Avo Italiano",
                "Naturalização antes do nascimento do descendente — impeditivo"] } := by
  decide

/-! ## C9 — the score never exceeds 94 -/

/-- C9: for every input the score is at most 94: the sum of all positive
contributions is 94, so the 100 ceiling is never the binding bound and
scores 95–100 are unreachable. -/
theorem scoreQuality_score_le_94
    (l : LineageInfo) (docs : List UploadedDoc) (a : Applicant) :
    (scoreQuality l docs a).score ≤ 94 := by
  have h := preScore_le_94 l docs a
  simp only [scoreQuality]
  omega

/-! ## C3 — label ladder -/

/-- C3: the label is derived from the clamped score by the high-to-low
threshold ladder with first match winning: at least 80 gives the "Excellent"
label, else at least 60 the "Good" label, else at least 40 the "Fair" label,
else the "Low" label; scores exactly 80, 60, 40 and 39 therefore yield,
respectively, the Excellent, Good, Fair and Low labels. -/
theorem scoreQuality_label_ladder
    (l : LineageInfo) (docs : List UploadedDoc) (a : Applicant) :
    (scoreQuality l docs a).label = labelOf (scoreQuality l docs a).score ∧
    (∀ s : Int, 80 ≤ s →
      labelOf s = "Excelente — Alta probabilidade de viabilidade") ∧
    (∀ s : Int, 60 ≤ s → s < 80 →
      labelOf s = "Boa — Viável com possíveis ajustes") ∧
    (∀ s : Int, 40 ≤ s → s < 60 →
      labelOf s = "Regular — Documentos/linhagem incompletos") ∧
    (∀ s : Int, s < 40 →
      labelOf s = "Baixa — Falhas críticas a resolver") := by
  refine ⟨rfl, ?_, ?_, ?_, ?_⟩ <;>
    (intro s; intros; unfold labelOf; split_ifs <;> first | rfl | omega)

/-- Witness for C3 at the boundary scores 80, 60, 40 and 39. -/
theorem scoreQuality_label_ladder_boundaries :
    labelOf 80 = "Excelente — Alta probabilidade de viabilidade" ∧
    labelOf 60 = "Boa — Viável com possíveis ajustes" ∧
    labelOf 40 = "Regular — Documentos/linhagem incompletos" ∧
    labelOf 39 = "Baixa — Falhas críticas a resolver" := by
  obtain ⟨-, h80, h60, h40, hlow⟩ :=
    scoreQuality_label_ladder defaultLineage [] emptyApplicant
  exact ⟨h80 80 (by norm_num), h60 60 (by norm_num) (by norm_num),
    h40 40 (by norm_num) (by norm_num), hlow 39 (by norm_num)⟩

/-! ## C6 — the naturalization-proof bonus is 12, applied once -/

/-- The accumulated sum with the naturalization-presence contribution removed:
every other `score +=` / `score -=` term of the source, in order. Used to
state that the naturalization-proof condition contributes exactly 12. -/
def preScoreSansNat (lineage : LineageInfo) (docs : List UploadedDoc)
    (applicant : Applicant) : Int :=
  (if applicant.fullName ≠ "" then 5 else 0)
  + (if applicant.email ≠ "" then 5 else 0)
  + (if applicant.country ≠ "" then 3 else 0)
  + (if applicant.city ≠ "" then 3 else 0)
  + (if lineage.italianAncestorName ≠ "" then 10 else 0)
  + (if lineage.italianAncestorBirthYear ≠ "" then 6 else 0)
  + (if lineage.relationshipToYou ≠ "" then 6 else 0)
  + (if hasType docs .certidao_nascimento then 10 else 0)
  + (if hasType docs .certidao_casamento then 8 else 0)
  + (if hasType docs .certidao_obito then 6 else 0)
  + (if hasType docs .apostila_haya then 8 else 0)
  + (if hasType docs .traducao_juramentada then 6 else 0)
  + (if lineage.anyNaturalizationInLine then -8 else 0)
  + (if lineage.naturalizedBeforeChildBirth then -25 else 0)
  + (if lineage.anyFemaleBefore1948 then -8 else 0)
  + (if pdfOrImg docs then 6 else 0)

/-- C6: whenever at least one of the two naturalization categories is present,
the accumulated sum is exactly 12 more than the sum of all other
contributions — the bonus is applied once per evaluation, not twice even when
both categories are present. -/
theorem preScore_naturalization_bonus_once
    (l : LineageInfo) (docs : List UploadedDoc) (a : Applicant)
    (h : (hasType docs .certidao_negativa_naturalizacao
          || hasType docs .certidao_naturalizacao) = true) :
    preScore l docs a = preScoreSansNat l docs a + 12 := by
  unfold preScore preScoreSansNat
  rw [if_pos h]
  ring

/-- Witness for C6 with BOTH naturalization categories present. -/
theorem preScore_naturalization_bonus_once_example :
    (hasType [negDoc, natDoc] .certidao_negativa_naturalizacao
      || hasType [negDoc, natDoc] .certidao_naturalizacao) = true ∧
    preScore defaultLineage [negDoc, natDoc] emptyApplicant =
      preScoreSansNat defaultLineage [negDoc, natDoc] emptyApplicant + 12 :=
  ⟨by decide,
   preScore_naturalization_bonus_once defaultLineage [negDoc, natDoc]
     emptyApplicant (by decide)⟩

/-! ## C7 — the format-sanity bonus of 6 -/

/-- The accumulated sum with the file-format sanity contribution removed:
every other `score +=` / `score -=` term of the source, in order. Used to
state that the format-sanity condition contributes exactly 6. -/
def preScoreSansFormat (lineage : LineageInfo) (docs : List UploadedDoc)
    (applicant : Applicant) : Int :=
  (if applicant.fullName ≠ "" then 5 else 0)
  + (if applicant.email ≠ "" then 5 else 0)
  + (if applicant.country ≠ "" then 3 else 0)
  + (if applicant.city ≠ "" then 3 else 0)
  + (if lineage.italianAncestorName ≠ "" then 10 else 0)
  + (if lineage.italianAncestorBirthYear ≠ "" then 6 else 0)
  + (if lineage.relationshipToYou ≠ "" then 6 else 0)
  + (if hasType docs .certidao_nascimento then 10 else 0)
  + (if hasType docs .certidao_casamento then 8 else 0)
  + (if hasType docs .certidao_obito then 6 else 0)
  + (if hasType docs .certidao_negativa_naturalizacao
        || hasType docs .certidao_naturalizacao then 12 else 0)
  + (if hasType docs .apostila_haya then 8 else 0)
  + (if hasType docs .traducao_juramentada then 6 else 0)
  + (if lineage.anyNaturalizationInLine then -8 else 0)
  + (if lineage.naturalizedBeforeChildBirth then -25 else 0)
  + (if lineage.anyFemaleBefore1948 then -8 else 0)

/-- C7: the accumulated sum is exactly 6 more than the sum of the other
contributions precisely when every uploaded document's filename ends in one
of the recognized extensions (.pdf, .png, .jpg, .jpeg, .webp, .gif,
case-insensitive); for the empty document list the condition is vacuously
true, so the 6 points are always added. -/
theorem preScore_format_bonus_iff
    (l : LineageInfo) (docs : List UploadedDoc) (a : Applicant) :
    (preScore l docs a = preScoreSansFormat l docs a + 6 ↔
      ∀ d ∈ docs, (isPDF d.file.name || isImage d.file.name) = true) ∧
    preScore l [] a = preScoreSansFormat l [] a + 6 := by
  have key : ∀ ds : List UploadedDoc,
      preScore l ds a = preScoreSansFormat l ds a + (if pdfOrImg ds then 6 else 0) := by
    intro ds
    unfold preScore preScoreSansFormat
    ring
  constructor
  · rw [key docs]
    constructor
    · intro heq
      have hsix : (if pdfOrImg docs then (6 : Int) else 0) = 6 := by omega
      cases hp : pdfOrImg docs with
      | true =>
        unfold pdfOrImg at hp
        rw [List.all_eq_true] at hp
        exact hp
      | false =>
        rw [hp] at hsix
        simp at hsix
    · intro hall
      have hp : pdfOrImg docs = true := by
        unfold pdfOrImg
        rw [List.all_eq_true]
        exact hall
      rw [if_pos hp]
  · rw [key []]
    rfl

/-- Witness for C7: one good document and the empty list both earn the bonus. -/
theorem preScore_format_bonus_iff_example :
    preScore defaultLineage [nascPdfDoc] emptyApplicant =
      preScoreSansFormat defaultLineage [nascPdfDoc] emptyApplicant + 6 ∧
    preScore defaultLineage [] emptyApplicant =
      preScoreSansFormat defaultLineage [] emptyApplicant + 6 :=
  ⟨(preScore_format_bonus_iff defaultLineage [nascPdfDoc] emptyApplicant).1.mpr
      (by decide),
   (preScore_format_bonus_iff defaultLineage [] emptyApplicant).2⟩

/-! ## Append, permutation and projection lemmas about the document list -/

lemma hasType_append (docs : List UploadedDoc) (d : UploadedDoc) (t : InferredType) :
    hasType (docs ++ [d]) t = (hasType docs t || (d.inferredType == t)) := by
  simp [hasType, List.any_append]

lemma pdfOrImg_append (docs : List UploadedDoc) (d : UploadedDoc) :
    pdfOrImg (docs ++ [d]) =
      (pdfOrImg docs && (isPDF d.file.name || isImage d.file.name)) := by
  simp [pdfOrImg, List.all_append]

lemma anyMapGen {α β : Type} (f : α → β) (l : List α) (p : β → Bool) :
    (l.map f).any p = l.any (fun x => p (f x)) := by
  induction l with
  | nil => rfl
  | cons x xs ih => simp [List.any_cons, ih]

lemma allMapGen {α β : Type} (f : α → β) (l : List α) (p : β → Bool) :
    (l.map f).all p = l.all (fun x => p (f x)) := by
  induction l with
  | nil => rfl
  | cons x xs ih => simp [List.all_cons, ih]

lemma any_eq_of_perm {α : Type} {l₁ l₂ : List α} (h : l₁.Perm l₂) (p : α → Bool) :
    l₁.any p = l₂.any p := by
  induction h with
  | nil => rfl
  | cons x _ ih => simp [List.any_cons, ih]
  | swap x y l => simp only [List.any_cons]; cases p x <;> cases p y <;> simp
  | trans _ _ ih₁ ih₂ => rw [ih₁, ih₂]

lemma all_eq_of_perm {α : Type} {l₁ l₂ : List α} (h : l₁.Perm l₂) (p : α → Bool) :
    l₁.all p = l₂.all p := by
  induction h with
  | nil => rfl
  | cons x _ ih => simp [List.all_cons, ih]
  | swap x y l => simp only [List.all_cons]; cases p x <;> cases p y <;> simp
  | trans _ _ ih₁ ih₂ => rw [ih₁, ih₂]

/-- Same category presences and same format-sanity verdict give the same
full evaluation result. -/
lemma scoreQuality_congr (l : LineageInfo) (a : Applicant)
    {docs₁ docs₂ : List UploadedDoc}
    (hhas : ∀ t, hasType docs₁ t = hasType docs₂ t)
    (hfmt : pdfOrImg docs₁ = pdfOrImg docs₂) :
    scoreQuality l docs₁ a = scoreQuality l docs₂ a := by
  simp only [scoreQuality, preScore, flagsOf, hhas, hfmt]

/-! ## C4 — effect of adding a birth-certificate document -/

/-- Counterexample to C4 as stated: starting from the empty document list
(score 12, far from the 100 ceiling), adding one document classified as
birth certificate but named with an unrecognized extension yields score 16,
an increase of 4, not 10 — the format-sanity bonus of 6 is forfeited. -/
theorem scoreQuality_add_nascimento_not_plus_ten :
    hasType [] .certidao_nascimento = false ∧
    nascBadExtDoc.inferredType = .certidao_nascimento ∧
    (scoreQuality defaultLineage [] emptyApplicant).score = 12 ∧
    (scoreQuality defaultLineage ([] ++ [nascBadExtDoc]) emptyApplicant).score = 16 ∧
    (scoreQuality defaultLineage [] emptyApplicant).score < 100 ∧
    (scoreQuality defaultLineage ([] ++ [nascBadExtDoc]) emptyApplicant).score <
      (scoreQuality defaultLineage [] emptyApplicant).score + 10 := by
  decide

/-- Adding a birth-certificate document with a recognized extension to a list
lacking that category raises the accumulated sum by exactly 10. -/
lemma preScore_snoc_nascimento (l : LineageInfo) (docs : List UploadedDoc)
    (a : Applicant) (d : UploadedDoc)
    (hnasc : hasType docs .certidao_nascimento = false)
    (hd : d.inferredType = .certidao_nascimento)
    (hgood : (isPDF d.file.name || isImage d.file.name) = true) :
    preScore l (docs ++ [d]) a = preScore l docs a + 10 := by
  unfold preScore
  simp only [hasType_append, pdfOrImg_append, hd, hgood, hnasc, Bool.and_true,
    Bool.false_or, Bool.or_true, beq_self_eq_true,
    show (InferredType.certidao_nascimento == InferredType.certidao_casamento)
      = false from by decide,
    show (InferredType.certidao_nascimento == InferredType.certidao_obito)
      = false from by decide,
    show (InferredType.certidao_nascimento ==
      InferredType.certidao_negativa_naturalizacao) = false from by decide,
    show (InferredType.certidao_nascimento == InferredType.certidao_naturalizacao)
      = false from by decide,
    show (InferredType.certidao_nascimento == InferredType.apostila_haya)
      = false from by decide,
    show (InferredType.certidao_nascimento == InferredType.traducao_juramentada)
      = false from by decide,
    Bool.or_false, reduceIte]
  norm_num
  ring

/-- Without the birth-certificate category the accumulated sum caps at 84. -/
lemma preScore_le_84_of_no_nascimento (l : LineageInfo)
    (docs : List UploadedDoc) (a : Applicant)
    (hnasc : hasType docs .certidao_nascimento = false) :
    preScore l docs a ≤ 84 := by
  have h : preScore l docs a ≤
      5 + 5 + 3 + 3 + 10 + 6 + 6 + 0 + 8 + 6 + 12 + 8 + 6 + 0 + 0 + 0 + 6 := by
    unfold preScore
    simp only [hnasc, Bool.false_eq_true, if_false]
    repeat' apply add_le_add
    all_goals first
      | (apply scoreIte_le_self; norm_num)
      | (apply scoreIte_nonpos; norm_num)
      | norm_num
  omega

/-- C4 amended: adding one birth-certificate document to a set lacking that
category, all else equal, increases the score by exactly 10 — provided the
added document's filename ends in a recognized extension (otherwise the
format-sanity bonus of 6 can be forfeited) and the accumulated sum was
already nonnegative (otherwise the 0 floor absorbs part of the gain). The
100 ceiling never binds, since the sum without a birth certificate is at
most 84. -/
theorem scoreQuality_add_nascimento_plus_ten (l : LineageInfo)
    (docs : List UploadedDoc) (a : Applicant) (d : UploadedDoc)
    (hnasc : hasType docs .certidao_nascimento = false)
    (hd : d.inferredType = .certidao_nascimento)
    (hgood : (isPDF d.file.name || isImage d.file.name) = true)
    (hpos : 0 ≤ preScore l docs a) :
    (scoreQuality l (docs ++ [d]) a).score = (scoreQuality l docs a).score + 10 := by
  have hsum := preScore_snoc_nascimento l docs a d hnasc hd hgood
  have hle := preScore_le_84_of_no_nascimento l docs a hnasc
  simp only [scoreQuality]
  omega

/-- Witness for the amended C4: empty list (score 12) plus a PDF birth
certificate gives score 22. -/
theorem scoreQuality_add_nascimento_plus_ten_example :
    (scoreQuality defaultLineage ([] ++ [nascPdfDoc]) emptyApplicant).score =
      (scoreQuality defaultLineage [] emptyApplicant).score + 10 :=
  scoreQuality_add_nascimento_plus_ten defaultLineage [] emptyApplicant
    nascPdfDoc (by decide) (by decide) (by decide) (by decide)

/-! ## C8 — the scorer treats the document list as a set of categories -/

/-- C8: permuting the document list, or appending a duplicate of a document
already present (same file name and same inferred category), leaves the whole
evaluation result — score, label and flags — unchanged. -/
theorem scoreQuality_multiset_invariant (l : LineageInfo) (a : Applicant) :
    (∀ docs₁ docs₂ : List UploadedDoc, docs₁.Perm docs₂ →
      scoreQuality l docs₁ a = scoreQuality l docs₂ a) ∧
    (∀ (docs : List UploadedDoc) (d d' : UploadedDoc), d ∈ docs →
      d'.file.name = d.file.name → d'.inferredType = d.inferredType →
      scoreQuality l (docs ++ [d']) a = scoreQuality l docs a) := by
  constructor
  · intro docs₁ docs₂ h
    exact scoreQuality_congr l a (fun t => any_eq_of_perm h _) (all_eq_of_perm h _)
  · intro docs d d' hmem hname htype
    apply scoreQuality_congr l a
    · intro t
      rw [hasType_append]
      cases he : (d'.inferredType == t) with
      | false => simp
      | true =>
        have ht : d.inferredType = t := by rw [← htype]; exact eq_of_beq he
        have hpres : hasType docs t = true := by
          unfold hasType
          rw [List.any_eq_true]
          exact ⟨d, hmem, by rw [ht]; exact beq_self_eq_true t⟩
        simp [hpres]
    · rw [pdfOrImg_append, hname]
      cases hp : pdfOrImg docs with
      | false => simp
      | true =>
        have hgood : (isPDF d.file.name || isImage d.file.name) = true := by
          unfold pdfOrImg at hp
          rw [List.all_eq_true] at hp
          exact hp d hmem
        simp [hgood]

/-- Witness for C8: a two-document swap and a duplicate appending. -/
theorem scoreQuality_multiset_invariant_example :
    scoreQuality defaultLineage [natDoc, nascPdfDoc] emptyApplicant =
      scoreQuality defaultLineage [nascPdfDoc, natDoc] emptyApplicant ∧
    scoreQuality defaultLineage ([nascPdfDoc] ++ [nascPdfDoc]) emptyApplicant =
      scoreQuality defaultLineage [nascPdfDoc] emptyApplicant :=
  ⟨(scoreQuality_multiset_invariant defaultLineage emptyApplicant).1 _ _
      (List.Perm.swap nascPdfDoc natDoc []),
   (scoreQuality_multiset_invariant defaultLineage emptyApplicant).2
      [nascPdfDoc] nascPdfDoc nascPdfDoc (List.mem_singleton.mpr rfl) rfl rfl⟩

/-! ## C10 — fields the evaluation does not read -/

/-- Projection of an uploaded document to the only data the scorer reads:
file name and inferred category. -/
def docObs (d : UploadedDoc) : String × InferredType :=
  (d.file.name, d.inferredType)

lemma hasType_eq_of_obs {docs docs' : List UploadedDoc}
    (h : docs.map docObs = docs'.map docObs) (t : InferredType) :
    hasType docs t = hasType docs' t := by
  unfold hasType
  have h1 : docs.any (fun d => d.inferredType == t) =
      (docs.map docObs).any (fun p => p.2 == t) := (anyMapGen docObs docs (fun p => p.2 == t)).symm
  have h2 : docs'.any (fun d => d.inferredType == t) =
      (docs'.map docObs).any (fun p => p.2 == t) := (anyMapGen docObs docs' (fun p => p.2 == t)).symm
  rw [h1, h2, h]

lemma pdfOrImg_eq_of_obs {docs docs' : List UploadedDoc}
    (h : docs.map docObs = docs'.map docObs) :
    pdfOrImg docs = pdfOrImg docs' := by
  unfold pdfOrImg
  have h1 : docs.all (fun d => isPDF d.file.name || isImage d.file.name) =
      (docs.map docObs).all (fun p => isPDF p.1 || isImage p.1) :=
    (allMapGen docObs docs (fun p => isPDF p.1 || isImage p.1)).symm
  have h2 : docs'.all (fun d => isPDF d.file.name || isImage d.file.name) =
      (docs'.map docObs).all (fun p => isPDF p.1 || isImage p.1) :=
    (allMapGen docObs docs' (fun p => isPDF p.1 || isImage p.1)).symm
  rw [h1, h2, h]

/-- C10: the evaluation never reads the applicant's phone, the lineage's
ancestor birth place, the documents' opaque ids, or the documents' byte
sizes: two inputs equal everywhere else produce identical results. -/
theorem scoreQuality_noninterference
    (l l' : LineageInfo) (a a' : Applicant) (docs docs' : List UploadedDoc)
    (hfn : a.fullName = a'.fullName) (hem : a.email = a'.email)
    (hco : a.country = a'.country) (hci : a.city = a'.city)
    (han : l.italianAncestorName = l'.italianAncestorName)
    (hay : l.italianAncestorBirthYear = l'.italianAncestorBirthYear)
    (hrel : l.relationshipToYou = l'.relationshipToYou)
    (hf48 : l.anyFemaleBefore1948 = l'.anyFemaleBefore1948)
    (hnat : l.anyNaturalizationInLine = l'.anyNaturalizationInLine)
    (hnb : l.naturalizedBeforeChildBirth = l'.naturalizedBeforeChildBirth)
    (hdocs : docs.map docObs = docs'.map docObs) :
    scoreQuality l docs a = scoreQuality l' docs' a' := by
  have hhas := hasType_eq_of_obs hdocs
  have hfmt := pdfOrImg_eq_of_obs hdocs
  simp only [scoreQuality, preScore, flagsOf, hfn, hem, hco, hci, han, hay,
    hrel, hf48, hnat, hnb, hhas, hfmt]

/-- A document identical to `nascPdfDoc` except for id and byte size. -/
def nascPdfDocAlt : UploadedDoc :=
  { id := "z9", file := { name := "nascimento_pedro.pdf", size := 777 },
    inferredType := .certidao_nascimento }

/-- Witness for C10: inputs differing only in phone, ancestor birth place,
document id and document size evaluate identically. -/
theorem scoreQuality_noninterference_example :
    scoreQuality defaultLineage [nascPdfDoc]
      { emptyApplicant with phone := "(11) 99999-0000" } =
    scoreQuality { defaultLineage with italianAncestorBirthPlace := "Campania, IT" }
      [nascPdfDocAlt] emptyApplicant :=
  scoreQuality_noninterference _ _ _ _ _ _
    rfl rfl rfl rfl rfl rfl rfl rfl rfl rfl (by decide)
